import Mathlib

/-!
Shallow embedding of the ACME protocol engine of VostroNet/lego
(acme/api/api.go, providers/dns/dns_providers.go, cmd setupDNS) and the
pieces of its direct dependencies that the embedded code calls
(github.com/cenkalti/backoff v2: ExponentialBackOff and Retry).

Conventions:
* durations are natural numbers of milliseconds;
* Go (value, error) pairs become Except or Option-pairs;
* external effects (the JWS signer, the HTTP transport, nonce extraction
  from a response) are passed in as explicit arguments, so every function
  here is a pure function of the source code's control flow over those
  outcomes;
* real wall-clock elapsed time is modelled as the accumulated back-off
  sleep intervals (the duration of the HTTP operations themselves is
  abstracted to zero), and the randomization factor of the back-off
  library is abstracted to its centre point (the interval itself).
-/

namespace LegoSpec

/-- Errors flowing out of a signed POST attempt. `nonceError` embeds Go's
`*acme.NonceError` (the CA's badNonce problem type); `otherError` embeds
every other Go error value (signing failures, transport failures, other CA
problem documents). The retry switch in `retrievablePost` distinguishes
exactly these two classes. -/
inductive AcmeError where
  | nonceError (detail : String)
  | otherError (msg : String)
deriving DecidableEq, Repr

/-- Whether an error is Go's `*acme.NonceError`. -/
def AcmeError.isNonce : AcmeError → Bool
  | .nonceError _ => true
  | .otherError _ => false

/-- The three fields of `backoff.ExponentialBackOff` that
`retrievablePost` (api.go lines 81-84) configures, in milliseconds. -/
structure ExponentialBackOff where
  initialInterval : Nat
  maxInterval : Nat
  maxElapsedTime : Nat
deriving DecidableEq, Repr

/-- The back-off configuration built in `retrievablePost`:
InitialInterval 200ms, MaxInterval 5s, MaxElapsedTime 20s. -/
def legoBackOff : ExponentialBackOff :=
  { initialInterval := 200, maxInterval := 5000, maxElapsedTime := 20000 }

/-- Mutable state of the back-off loop: the current interval and the
elapsed time (sum of sleeps performed so far). -/
structure BackOffState where
  currentInterval : Nat
  elapsedMs : Nat
deriving DecidableEq, Repr

/-- Model of `Reset` of the back-off (called by `backoff.Retry` before the first
attempt): CurrentInterval starts at InitialInterval, clock at zero. -/
def ExponentialBackOff.initState (bo : ExponentialBackOff) : BackOffState :=
  { currentInterval := bo.initialInterval, elapsedMs := 0 }

/-- One sleep of the back-off loop: the elapsed clock advances by the
current interval, and `incrementCurrentInterval` multiplies the current
interval by 1.5, capping it at MaxInterval (the Go guard
`cur >= max/1.5` is the integer condition `3*cur >= 2*max`). -/
def ExponentialBackOff.step (bo : ExponentialBackOff) (st : BackOffState) : BackOffState :=
  { currentInterval :=
      if 3 * st.currentInterval ≥ 2 * bo.maxInterval then bo.maxInterval
      else 3 * st.currentInterval / 2,
    elapsedMs := st.elapsedMs + st.currentInterval }

/-- Model of `backoff.Retry` as driven by the `operation` closure of
`retrievablePost` (api.go lines 89-107). `op n` is the outcome of the
n-th call to `signedPost`. Per attempt:
* success returns it (`nil` from the operation ends the loop);
* a `*acme.NonceError` is returned to the back-off loop, which checks
  `GetElapsedTime() > MaxElapsedTime`; past the budget `NextBackOff`
  yields `Stop` and `Retry` returns that last error, otherwise it sleeps
  and retries;
* any other error triggers `cancel()`, so the context-wrapped
  `NextBackOff` yields `Stop` and `Retry` returns that error with no
  further attempt.
The result pairs the number of attempts performed with the final
outcome; `none` means the fuel ran out (the real loop needs at most 13
attempts under `legoBackOff`, so any larger fuel is exact). -/
def retryRun {α : Type} (op : Nat → Except AcmeError α) (bo : ExponentialBackOff) :
    Nat → Nat → BackOffState → Option (Nat × Except AcmeError α)
  | 0, _, _ => none
  | fuel + 1, n, st =>
    match op n with
    | .ok a => some (n + 1, .ok a)
    | .error (.nonceError d) =>
      if st.elapsedMs > bo.maxElapsedTime then some (n + 1, .error (.nonceError d))
      else retryRun op bo fuel (n + 1) (bo.step st)
    | .error (.otherError m) => some (n + 1, .error (.otherError m))

/-- Model of `Core.retrievablePost` (api.go lines 79-113): run the signed-POST
operation under the freshly configured exponential back-off. -/
def retrievablePost {α : Type} (op : Nat → Except AcmeError α) (fuel : Nat) :
    Option (Nat × Except AcmeError α) :=
  retryRun op legoBackOff fuel 0 legoBackOff.initState

/-- Modelled from the spec: `nonces.Manager.Push` — the Manager's pool is
a collection of tokens and `Push(nonce)` inserts a token into the pool
(the Manager's own code is outside the excerpted sources). -/
def nonceManagerPush (pool : List String) (nonce : String) : List String :=
  pool ++ [nonce]

/-- Model of `Core.signedPost` (api.go lines 115-132). Arguments carry the
outcomes of the external effects: `signResult` is `jws.SignContent`
(serialized JWS on success), `doerPost` is the transport's `Post` on a
given signed body, returning Go's `(resp, err)` pair, `getFromResponse`
is `nonces.GetFromResponse` on the (possibly nil) response. Returns the
`(resp, err)` pair handed to the caller together with the nonce pool
after the attempt. A signing failure returns the wrapped error with no
transport call; otherwise the transport pair is returned as-is and, when
nonce extraction succeeds, the nonce is pushed (the extraction error is
ignored to keep the root error). -/
def signedPost {ρ : Type} (signResult : Except String String)
    (doerPost : String → Option ρ × Option AcmeError)
    (getFromResponse : Option ρ → Except String String)
    (pool : List String) : (Option ρ × Option AcmeError) × List String :=
  match signResult with
  | .error e =>
    ((none, some (.otherError
      ("failed to post JWS message -> failed to sign content -> " ++ e))), pool)
  | .ok signedContent =>
    let r := doerPost signedContent
    match getFromResponse r.1 with
    | .ok nonce => (r, nonceManagerPush pool nonce)
    | .error _ => (r, pool)

/-- Model of `Core.post` (api.go lines 62-71): marshal the request body, failing
fast with "failed to marshal message" (zero signed-POST attempts),
otherwise hand the marshaled content to `retrievablePost`. `op content n`
is the outcome of the n-th signed POST of `content`. -/
def post {α : Type} (marshalResult : Except String String)
    (op : String → Nat → Except AcmeError α) (fuel : Nat) :
    Option (Nat × Except AcmeError α) :=
  match marshalResult with
  | .error _ => some (0, .error (.otherError "failed to marshal message"))
  | .ok content => retrievablePost (op content) fuel

/-- Model of `acme.Directory`: the CA-advertised map of resource kind to URL.
Absent URLs are the empty string, as in the Go zero value. -/
structure Directory where
  newNonceURL : String
  newAccountURL : String
  newOrderURL : String
  revokeCertURL : String
  keyChangeURL : String
deriving DecidableEq, Repr

/-- The state of `api.Core` that the embedded operations touch: the
fetched directory, the nonce pool, and the JWS account-key material
(abstracted to the base64url SHA-256 thumbprint the key authorization
needs). -/
structure Core where
  directory : Directory
  noncePool : List String
  jwsThumbprint : String
deriving DecidableEq, Repr

/-- Model of `getDirectory` (api.go lines 152-166): `fetchResult` is the outcome
of the transport `Get` of the directory document. A fetch error is
wrapped; a fetched directory missing the new-account URL or the
new-order URL is rejected; otherwise it is returned unchanged. -/
def getDirectory (fetchResult : Except String Directory) (caDirURL : String) :
    Except String Directory :=
  match fetchResult with
  | .error e => .error ("get directory at '" ++ caDirURL ++ "': " ++ e)
  | .ok dir =>
    if dir.newAccountURL = "" then .error "directory missing new registration URL"
    else if dir.newOrderURL = "" then .error "directory missing new order URL"
    else .ok dir

/-- Model of `api.New` (api.go lines 38-60): construct a Core, failing when
`getDirectory` fails, and otherwise storing the accepted directory. -/
def New (fetchResult : Except String Directory) (caDirURL : String)
    (thumbprint : String) : Except String Core :=
  match getDirectory fetchResult caDirURL with
  | .error e => .error e
  | .ok dir => .ok { directory := dir, noncePool := [], jwsThumbprint := thumbprint }

/-- Model of `Core.GetDirectory` (api.go lines 148-150). -/
def Core.GetDirectory (c : Core) : Directory := c.directory

/-- Modelled from the spec: `secure.JWS.GetKeyAuthorization` — the body
of the JWS signer (acme/api/internal/secure) is outside the excerpted
sources; the spec states the key authorization is
`token || "." || base64url(SHA-256(account-key JWK thumbprint))`, a pure
function of the held account key and the token with no network or state
access. The thumbprint digest is abstracted to the precomputed string
held by the JWS. -/
def jwsGetKeyAuthorization (thumbprintB64 : String) (token : String) :
    Except String String :=
  .ok (token ++ "." ++ thumbprintB64)

/-- Model of `Core.GetKeyAuthorization` (api.go lines 143-146): delegates to the
JWS; as state-threaded code it returns the resulting Core alongside. -/
def Core.GetKeyAuthorization (c : Core) (token : String) :
    Except String String × Core :=
  (jwsGetKeyAuthorization c.jwsThumbprint token, c)

/-- One tag per DNS provider constructor reachable from
`NewDNSChallengeProviderByName`: the tag names the package constructor
(`<pkg>.NewDNSProvider`, and `dns01.NewDNSProviderManual` for
`dns01Manual`) whose code is an external adapter outside this core. -/
inductive ProviderConstructor where
  | acmedns | alidns | azure | auroradns | bindman | bluecat | cloudflare | cloudns | cloudxns
  | conoha | designate | digitalocean | dnsimple | dnsmadeeasy | dnspod | dode | dreamhost
  | duckdns | dyn | fastdns | easydns | exec | exoscale | gandi | gandiv5 | glesys | gcloud
  | godaddy | hostingde | httpreq | iij | inwx | joker | lightsail | linode | linodev4
  | dns01Manual | mydnsjp | namecheap | namedotcom | netcup | nifcloud | ns1 | oraclecloud | otc
  | ovh | pdns | rackspace | route53 | rfc2136 | sakuracloud | stackpath | selectel | transip
  | vegadns | versio | vultr | vscale | zoneee
deriving DecidableEq, Repr

/-- Model of `NewDNSChallengeProviderByName` (providers/dns/dns_providers.go
lines 69-192): the switch over the provider name. A recognized name
transfers control to exactly that provider constructor (returned as its
tag, since the adapters are external); the default branch returns Go's
`(nil, fmt.Errorf("unrecognized DNS provider: %s", name))`, embedded as
the error alone. The Go switch on distinct string literals is sequential
comparison, embedded as an if-chain in source order. -/
def NewDNSChallengeProviderByName (name : String) : Except String ProviderConstructor :=
  if name = "acme-dns" then .ok .acmedns
  else if name = "alidns" then .ok .alidns
  else if name = "azure" then .ok .azure
  else if name = "auroradns" then .ok .auroradns
  else if name = "bindman" then .ok .bindman
  else if name = "bluecat" then .ok .bluecat
  else if name = "cloudflare" then .ok .cloudflare
  else if name = "cloudns" then .ok .cloudns
  else if name = "cloudxns" then .ok .cloudxns
  else if name = "conoha" then .ok .conoha
  else if name = "designate" then .ok .designate
  else if name = "digitalocean" then .ok .digitalocean
  else if name = "dnsimple" then .ok .dnsimple
  else if name = "dnsmadeeasy" then .ok .dnsmadeeasy
  else if name = "dnspod" then .ok .dnspod
  else if name = "dode" then .ok .dode
  else if name = "dreamhost" then .ok .dreamhost
  else if name = "duckdns" then .ok .duckdns
  else if name = "dyn" then .ok .dyn
  else if name = "fastdns" then .ok .fastdns
  else if name = "easydns" then .ok .easydns
  else if name = "exec" then .ok .exec
  else if name = "exoscale" then .ok .exoscale
  else if name = "gandi" then .ok .gandi
  else if name = "gandiv5" then .ok .gandiv5
  else if name = "glesys" then .ok .glesys
  else if name = "gcloud" then .ok .gcloud
  else if name = "godaddy" then .ok .godaddy
  else if name = "hostingde" then .ok .hostingde
  else if name = "httpreq" then .ok .httpreq
  else if name = "iij" then .ok .iij
  else if name = "inwx" then .ok .inwx
  else if name = "joker" then .ok .joker
  else if name = "lightsail" then .ok .lightsail
  else if name = "linode" then .ok .linode
  else if name = "linodev4" then .ok .linodev4
  else if name = "manual" then .ok .dns01Manual
  else if name = "mydnsjp" then .ok .mydnsjp
  else if name = "namecheap" then .ok .namecheap
  else if name = "namedotcom" then .ok .namedotcom
  else if name = "netcup" then .ok .netcup
  else if name = "nifcloud" then .ok .nifcloud
  else if name = "ns1" then .ok .ns1
  else if name = "oraclecloud" then .ok .oraclecloud
  else if name = "otc" then .ok .otc
  else if name = "ovh" then .ok .ovh
  else if name = "pdns" then .ok .pdns
  else if name = "rackspace" then .ok .rackspace
  else if name = "route53" then .ok .route53
  else if name = "rfc2136" then .ok .rfc2136
  else if name = "sakuracloud" then .ok .sakuracloud
  else if name = "stackpath" then .ok .stackpath
  else if name = "selectel" then .ok .selectel
  else if name = "transip" then .ok .transip
  else if name = "vegadns" then .ok .vegadns
  else if name = "versio" then .ok .versio
  else if name = "vultr" then .ok .vultr
  else if name = "vscale" then .ok .vscale
  else if name = "zoneee" then .ok .zoneee
  else .error ("unrecognized DNS provider: " ++ name)

/-- The registry reading of the switch: the association list mapping
each recognized provider name to its constructor tag, in source order. -/
def dnsProviderRegistry : List (String × ProviderConstructor) :=
  [
   ("acme-dns", .acmedns),
   ("alidns", .alidns),
   ("azure", .azure),
   ("auroradns", .auroradns),
   ("bindman", .bindman),
   ("bluecat", .bluecat),
   ("cloudflare", .cloudflare),
   ("cloudns", .cloudns),
   ("cloudxns", .cloudxns),
   ("conoha", .conoha),
   ("designate", .designate),
   ("digitalocean", .digitalocean),
   ("dnsimple", .dnsimple),
   ("dnsmadeeasy", .dnsmadeeasy),
   ("dnspod", .dnspod),
   ("dode", .dode),
   ("dreamhost", .dreamhost),
   ("duckdns", .duckdns),
   ("dyn", .dyn),
   ("fastdns", .fastdns),
   ("easydns", .easydns),
   ("exec", .exec),
   ("exoscale", .exoscale),
   ("gandi", .gandi),
   ("gandiv5", .gandiv5),
   ("glesys", .glesys),
   ("gcloud", .gcloud),
   ("godaddy", .godaddy),
   ("hostingde", .hostingde),
   ("httpreq", .httpreq),
   ("iij", .iij),
   ("inwx", .inwx),
   ("joker", .joker),
   ("lightsail", .lightsail),
   ("linode", .linode),
   ("linodev4", .linodev4),
   ("manual", .dns01Manual),
   ("mydnsjp", .mydnsjp),
   ("namecheap", .namecheap),
   ("namedotcom", .namedotcom),
   ("netcup", .netcup),
   ("nifcloud", .nifcloud),
   ("ns1", .ns1),
   ("oraclecloud", .oraclecloud),
   ("otc", .otc),
   ("ovh", .ovh),
   ("pdns", .pdns),
   ("rackspace", .rackspace),
   ("route53", .route53),
   ("rfc2136", .rfc2136),
   ("sakuracloud", .sakuracloud),
   ("stackpath", .stackpath),
   ("selectel", .selectel),
   ("transip", .transip),
   ("vegadns", .vegadns),
   ("versio", .versio),
   ("vultr", .vultr),
   ("vscale", .vscale),
   ("zoneee", .zoneee)]

/-- Model of the DNS-01 challenge configuration that `setupDNS` touches.
`recursiveNameservers` is the configured set of extra recursive
nameservers to query in addition to the authoritative ones;
`requireCompletePropagation` is the full-propagation requirement
(defaults to on); `dnsTimeoutSec` is the per-request DNS timeout in
seconds when one has been applied. -/
structure DNS01Options where
  recursiveNameservers : List String
  requireCompletePropagation : Bool
  dnsTimeoutSec : Option Nat
deriving DecidableEq, Repr

/-- Modelled from the spec: `dns01.ParseNameservers` — the spec does not
constrain the parsing of the resolver strings, so it is modelled as the
identity on the server list. -/
def ParseNameservers (servers : List String) : List String := servers

/-- Modelled from the spec: `dns01.CondOption` applies the wrapped
option exactly when the condition holds, else leaves the configuration
untouched. -/
def CondOption (condition : Bool) (opt : DNS01Options → DNS01Options) :
    DNS01Options → DNS01Options :=
  if condition then opt else id

/-- Modelled from the spec: `dns01.AddRecursiveNameservers` configures
the extra recursive nameservers to query in addition to the
authoritative ones. -/
def AddRecursiveNameservers (servers : List String) (o : DNS01Options) :
    DNS01Options :=
  { o with recursiveNameservers := servers }

/-- Modelled from the spec: `dns01.DisableCompletePropagationRequirement`
turns off the full-propagation requirement. -/
def DisableCompletePropagationRequirement (o : DNS01Options) : DNS01Options :=
  { o with requireCompletePropagation := false }

/-- Modelled from the spec: `dns01.AddDNSTimeout` applies the given
per-request DNS timeout (the source passes the configured number of
seconds). -/
def AddDNSTimeout (seconds : Nat) (o : DNS01Options) : DNS01Options :=
  { o with dnsTimeoutSec := some seconds }

/-- The command-line context read by `setupDNS`: the values behind
`dns.resolvers`, `dns.disable-cp`, and `dns-timeout` (with Go's
IsSet flag distinct from the integer value). -/
structure CLIDNSContext where
  resolvers : List String
  disableCP : Bool
  dnsTimeoutIsSet : Bool
  dnsTimeout : Nat
deriving DecidableEq, Repr

/-- Model of `setupDNS` (cmd, lines 100-118) restricted to the option
list it passes to `SetDNS01Provider`: the three conditional options are
applied to the challenge configuration in order. -/
def setupDNS (ctx : CLIDNSContext) (o : DNS01Options) : DNS01Options :=
  CondOption ctx.dnsTimeoutIsSet (AddDNSTimeout ctx.dnsTimeout)
    (CondOption ctx.disableCP DisableCompletePropagationRequirement
      (CondOption (decide (0 < ctx.resolvers.length))
        (AddRecursiveNameservers (ParseNameservers ctx.resolvers)) o))

/-! ## Helper lemmas on the retry loop -/

/-- Every attempt strictly before the last one of a completed run failed
with a bad nonce: the loop only reaches attempt i+1 after a retriable
(bad-nonce) failure of attempt i. -/
theorem retryRun_prefix_badNonce {α : Type} (op : Nat → Except AcmeError α)
    (bo : ExponentialBackOff) :
    ∀ (fuel n : Nat) (st : BackOffState) (k : Nat) (r : Except AcmeError α),
      retryRun op bo fuel n st = some (k, r) →
      ∀ i, n ≤ i → i + 1 < k → ∃ d, op i = Except.error (AcmeError.nonceError d) := by
  intro fuel
  induction fuel with
  | zero =>
    intro n st k r h
    simp [retryRun] at h
  | succ f ih =>
    intro n st k r h i hni hik
    cases hop : op n with
    | ok a =>
      simp only [retryRun, hop] at h
      simp only [Option.some.injEq, Prod.mk.injEq] at h
      omega
    | error e =>
      cases e with
      | nonceError d =>
        simp only [retryRun, hop] at h
        by_cases hb : st.elapsedMs > bo.maxElapsedTime
        · rw [if_pos hb] at h
          simp only [Option.some.injEq, Prod.mk.injEq] at h
          omega
        · rw [if_neg hb] at h
          rcases Nat.eq_or_lt_of_le hni with hin | hin
          · exact ⟨d, hin ▸ hop⟩
          · exact ih (n + 1) (bo.step st) k r h i hin hik
      | otherError m =>
        simp only [retryRun, hop] at h
        simp only [Option.some.injEq, Prod.mk.injEq] at h
        omega

/-- When every attempt fails with a bad nonce, whatever a completed run
returns is a bad-nonce error. -/
theorem retryRun_all_badNonce {α : Type} (op : Nat → Except AcmeError α)
    (bo : ExponentialBackOff)
    (hall : ∀ i, ∃ d, op i = Except.error (AcmeError.nonceError d)) :
    ∀ (fuel n : Nat) (st : BackOffState) (k : Nat) (r : Except AcmeError α),
      retryRun op bo fuel n st = some (k, r) →
      ∃ d, r = Except.error (AcmeError.nonceError d) := by
  intro fuel
  induction fuel with
  | zero =>
    intro n st k r h
    simp [retryRun] at h
  | succ f ih =>
    intro n st k r h
    obtain ⟨d, hd⟩ := hall n
    simp only [retryRun, hd] at h
    by_cases hb : st.elapsedMs > bo.maxElapsedTime
    · rw [if_pos hb] at h
      simp only [Option.some.injEq, Prod.mk.injEq] at h
      exact ⟨d, h.2.symm⟩
    · rw [if_neg hb] at h
      exact ih (n + 1) (bo.step st) k r h

/-! ## Claims -/

/-- Claim C1: in the Retrying Request Executor an attempt is retried if and
only if the signed request failed with the CA's bad-nonce problem type: a
successful attempt and a non-nonce error (the class that includes the
wrapped signing failures, shown non-nonce by the fourth conjunct) end the
loop at once with no further attempt, a bad-nonce failure within the
budget leads to exactly the next attempt, and in any completed run every
attempt before the last failed with a bad nonce. -/
theorem retrievablePost_retries_iff_badNonce {α : Type} :
    (∀ (op : Nat → Except AcmeError α) (fuel n : Nat) (st : BackOffState) (a : α),
      op n = Except.ok a →
      retryRun op legoBackOff (fuel + 1) n st = some (n + 1, Except.ok a))
    ∧ (∀ (op : Nat → Except AcmeError α) (fuel n : Nat) (st : BackOffState) (m : String),
      op n = Except.error (AcmeError.otherError m) →
      retryRun op legoBackOff (fuel + 1) n st =
        some (n + 1, Except.error (AcmeError.otherError m)))
    ∧ (∀ (op : Nat → Except AcmeError α) (fuel n : Nat) (st : BackOffState) (d : String),
      op n = Except.error (AcmeError.nonceError d) →
      st.elapsedMs ≤ legoBackOff.maxElapsedTime →
      retryRun op legoBackOff (fuel + 1) n st =
        retryRun op legoBackOff fuel (n + 1) (legoBackOff.step st))
    ∧ (∀ (e : String) (doerPost : String → Option α × Option AcmeError)
        (gfr : Option α → Except String String) (pool : List String),
      ((signedPost (Except.error e) doerPost gfr pool).1.2.map AcmeError.isNonce) = some false)
    ∧ (∀ (op : Nat → Except AcmeError α) (fuel k : Nat) (r : Except AcmeError α),
      retrievablePost op fuel = some (k, r) →
      ∀ i, i + 1 < k → ∃ d, op i = Except.error (AcmeError.nonceError d)) := by
  refine ⟨?_, ?_, ?_, ?_, ?_⟩
  · intro op fuel n st a h
    simp [retryRun, h]
  · intro op fuel n st m h
    simp [retryRun, h]
  · intro op fuel n st d h hle
    simp [retryRun, h, Nat.not_lt.mpr hle]
  · intro e doerPost gfr pool
    simp [signedPost, AcmeError.isNonce]
  · intro op fuel k r h i hik
    exact retryRun_prefix_badNonce op legoBackOff fuel 0 legoBackOff.initState k r h i
      (Nat.zero_le i) hik

/-- Claim C1 witness: a non-nonce failure on the very first attempt ends
the loop after exactly one attempt, surfacing that error. -/
theorem retrievablePost_retries_iff_badNonce_witness :
    retryRun (fun _ => (Except.error (AcmeError.otherError "boom") : Except AcmeError Unit))
      legoBackOff 1 0 legoBackOff.initState =
      some (1, Except.error (AcmeError.otherError "boom")) :=
  (retrievablePost_retries_iff_badNonce (α := Unit)).2.1 _ 0 0 legoBackOff.initState "boom" rfl

/-- Claim C2 counterexample: a CA that always answers bad-nonce exhausts
the budget after 12 attempts, and the error handed to the caller is the
bad-nonce protocol error itself (backoff.Retry returns the last operation
error when NextBackOff yields Stop), not a distinct timeout error. -/
theorem badNonce_exhaustion_counterexample :
    retrievablePost
      (fun _ => (Except.error (AcmeError.nonceError "bad") : Except AcmeError Unit)) 20 =
      some (12, Except.error (AcmeError.nonceError "bad")) := rfl

/-- Claim C2 (amended): when the Executor's retry budget is exhausted by
repeated bad-nonce errors, the error returned to the caller is the last
bad-nonce error itself — still the bad-nonce protocol error, not a
distinct timeout error. -/
theorem badNonce_exhaustion_returns_badNonce {α : Type}
    (op : Nat → Except AcmeError α) (fuel k : Nat) (r : Except AcmeError α)
    (hall : ∀ i, ∃ d, op i = Except.error (AcmeError.nonceError d))
    (hrun : retrievablePost op fuel = some (k, r)) :
    ∃ d, r = Except.error (AcmeError.nonceError d) :=
  retryRun_all_badNonce op legoBackOff hall fuel 0 legoBackOff.initState k r hrun

/-- Claim C2 (amended) witness: the always-bad-nonce run above returns a
bad-nonce error. -/
theorem badNonce_exhaustion_returns_badNonce_witness :
    ∃ d, (Except.error (AcmeError.nonceError "bad") : Except AcmeError Unit) =
      Except.error (AcmeError.nonceError d) :=
  badNonce_exhaustion_returns_badNonce
    (fun _ => Except.error (AcmeError.nonceError "bad")) 20 12
    (Except.error (AcmeError.nonceError "bad"))
    (fun _ => ⟨"bad", rfl⟩) rfl

/-- Claim C4: the retry loop is configured with initial interval 200ms,
a per-attempt interval multiplied by 1.5 and capped at 5s, and a total
elapsed-time budget of 20s; once the elapsed time exceeds the budget no
further retry happens — the next bad-nonce check returns the error at
once. -/
theorem backoff_parameters_and_budget {α : Type} :
    legoBackOff.initialInterval = 200
    ∧ legoBackOff.maxInterval = 5000
    ∧ legoBackOff.maxElapsedTime = 20000
    ∧ legoBackOff.initState.currentInterval = 200
    ∧ (∀ st : BackOffState,
        (legoBackOff.step st).currentInterval = min (3 * st.currentInterval / 2) 5000)
    ∧ (∀ (op : Nat → Except AcmeError α) (fuel n : Nat) (st : BackOffState)
        (e : AcmeError), legoBackOff.maxElapsedTime < st.elapsedMs →
        op n = Except.error e →
        retryRun op legoBackOff (fuel + 1) n st = some (n + 1, Except.error e)) := by
  refine ⟨rfl, rfl, rfl, rfl, ?_, ?_⟩
  · intro st
    simp only [ExponentialBackOff.step, legoBackOff]
    by_cases h : 3 * st.currentInterval ≥ 2 * 5000
    · rw [if_pos h]
      omega
    · rw [if_neg h]
      omega
  · intro op fuel n st e hb hop
    cases e with
    | nonceError d =>
      simp [retryRun, hop, hb]
    | otherError m =>
      simp [retryRun, hop]

/-- Claim C4 witness: with the elapsed clock one past the 20s budget, a
bad-nonce failure is returned immediately with no further attempt. -/
theorem backoff_parameters_and_budget_witness :
    retryRun (fun _ => (Except.error (AcmeError.nonceError "late") : Except AcmeError Unit))
      legoBackOff 5 3 ⟨5000, 20001⟩ =
      some (4, Except.error (AcmeError.nonceError "late")) :=
  (backoff_parameters_and_budget (α := Unit)).2.2.2.2.2 _ 4 3 ⟨5000, 20001⟩
    (AcmeError.nonceError "late") (by decide) rfl

/-- Claim C3: for every signed POST attempt whose signing succeeded,
whatever the transport outcome (the response/error pair is arbitrary,
including failed attempts), if nonce extraction from the response
succeeds then that nonce is pushed into the Nonce Manager's pool. -/
theorem signedPost_pushes_nonce {ρ : Type} (signedContent : String)
    (doerPost : String → Option ρ × Option AcmeError)
    (getFromResponse : Option ρ → Except String String)
    (pool : List String) (nonce : String)
    (h : getFromResponse (doerPost signedContent).1 = Except.ok nonce) :
    (signedPost (Except.ok signedContent) doerPost getFromResponse pool).2 =
      nonceManagerPush pool nonce := by
  simp [signedPost, h]

/-- Claim C3 witness: an attempt whose transport reports a server error
still pushes the returned nonce into the pool. -/
theorem signedPost_pushes_nonce_witness :
    (signedPost (ρ := Unit) (Except.ok "jws")
      (fun _ => (some (), some (AcmeError.otherError "500")))
      (fun _ => Except.ok "n1") ["n0"]).2 = ["n0", "n1"] :=
  signedPost_pushes_nonce "jws" (fun _ => (some (), some (AcmeError.otherError "500")))
    (fun _ => Except.ok "n1") ["n0"] "n1" rfl

/-- Claim C10: when signing succeeded, the (response, error) pair that
signedPost hands back is exactly the pair produced by the transport's
Post, for every possible nonce-extraction outcome — an extraction
failure is ignored and the root transport result is preserved. -/
theorem signedPost_preserves_transport_pair {ρ : Type} (signedContent : String)
    (doerPost : String → Option ρ × Option AcmeError)
    (getFromResponse : Option ρ → Except String String) (pool : List String) :
    (signedPost (Except.ok signedContent) doerPost getFromResponse pool).1 =
      doerPost signedContent := by
  simp only [signedPost]
  cases getFromResponse (doerPost signedContent).1 <;> rfl

/-- Claim C5: constructing a Core fails, returning no Core, whenever the
fetched directory lacks the new-account URL or the new-order URL; when
both are present the directory is accepted and stored unchanged, as
GetDirectory then returns. -/
theorem New_directory_validation (dir : Directory) (caDirURL thumbprint : String) :
    ((dir.newAccountURL = "" ∨ dir.newOrderURL = "") →
      ∃ e, New (Except.ok dir) caDirURL thumbprint = Except.error e)
    ∧ (dir.newAccountURL ≠ "" → dir.newOrderURL ≠ "" →
      New (Except.ok dir) caDirURL thumbprint =
        Except.ok { directory := dir, noncePool := [], jwsThumbprint := thumbprint })
    ∧ (∀ c, New (Except.ok dir) caDirURL thumbprint = Except.ok c →
      c.GetDirectory = dir) := by
  refine ⟨?_, ?_, ?_⟩
  · intro h
    rcases h with h | h
    · exact ⟨"directory missing new registration URL", by simp [New, getDirectory, h]⟩
    · by_cases ha : dir.newAccountURL = ""
      · exact ⟨"directory missing new registration URL", by simp [New, getDirectory, ha]⟩
      · exact ⟨"directory missing new order URL", by simp [New, getDirectory, ha, h]⟩
  · intro ha ho
    simp [New, getDirectory, ha, ho]
  · intro c hc
    by_cases ha : dir.newAccountURL = ""
    · simp [New, getDirectory, ha] at hc
    · by_cases ho : dir.newOrderURL = ""
      · simp [New, getDirectory, ha, ho] at hc
      · simp [New, getDirectory, ha, ho] at hc
        rw [← hc]
        rfl

/-- Claim C5 witness: a directory missing the new-order URL is rejected,
and a directory with both URLs is accepted and stored unchanged. -/
theorem New_directory_validation_witness :
    (∃ e, New (Except.ok (Directory.mk "n" "acct" "" "r" "k")) "u" "t" = Except.error e)
    ∧ New (Except.ok (Directory.mk "n" "acct" "ord" "r" "k")) "u" "t" =
        Except.ok { directory := Directory.mk "n" "acct" "ord" "r" "k",
                    noncePool := [], jwsThumbprint := "t" } :=
  ⟨(New_directory_validation (Directory.mk "n" "acct" "" "r" "k") "u" "t").1 (Or.inr rfl),
   (New_directory_validation (Directory.mk "n" "acct" "ord" "r" "k") "u" "t").2.1
     (by simp) (by simp)⟩

/-- Claim C6: GetKeyAuthorization is deterministic and effect-free: it
leaves the Core unchanged, a second call with the same token returns the
same result, and the result depends only on the held account key
material and the token. -/
theorem getKeyAuthorization_deterministic (c c₂ : Core) (token : String) :
    (c.GetKeyAuthorization token).2 = c
    ∧ ((c.GetKeyAuthorization token).2.GetKeyAuthorization token).1 =
        (c.GetKeyAuthorization token).1
    ∧ (c.jwsThumbprint = c₂.jwsThumbprint →
        (c.GetKeyAuthorization token).1 = (c₂.GetKeyAuthorization token).1) := by
  refine ⟨rfl, rfl, ?_⟩
  intro h
  simp [Core.GetKeyAuthorization, jwsGetKeyAuthorization, h]

/-- Claim C6 witness: two Cores holding the same key material produce the
same key authorization for the same token. -/
theorem getKeyAuthorization_deterministic_witness :
    ((Core.mk (Directory.mk "n" "a" "o" "r" "k") [] "tp").GetKeyAuthorization "tok").1 =
      ((Core.mk (Directory.mk "x" "y" "z" "w" "v") ["p"] "tp").GetKeyAuthorization "tok").1 :=
  (getKeyAuthorization_deterministic (Core.mk (Directory.mk "n" "a" "o" "r" "k") [] "tp")
    (Core.mk (Directory.mk "x" "y" "z" "w" "v") ["p"] "tp") "tok").2.2 rfl

/-- Claim C9: a request body that cannot be marshaled makes Core.post
return the "failed to marshal message" error with zero signed-POST
attempts (so no signing, no nonce consumption, no network I/O), and the
signed-post path runs (the attempt count is positive) only when the body
marshaled successfully. -/
theorem post_marshal_failure {α : Type} :
    (∀ (msg : String) (op : String → Nat → Except AcmeError α) (fuel : Nat),
      post (Except.error msg) op fuel =
        some (0, Except.error (AcmeError.otherError "failed to marshal message")))
    ∧ (∀ (marshalResult : Except String String) (op : String → Nat → Except AcmeError α)
        (fuel k : Nat) (r : Except AcmeError α),
      post marshalResult op fuel = some (k, r) → 0 < k →
      ∃ content, marshalResult = Except.ok content) := by
  refine ⟨?_, ?_⟩
  · intro msg op fuel
    rfl
  · intro marshalResult op fuel k r h hk
    cases marshalResult with
    | error msg =>
      simp [post] at h
      omega
    | ok content =>
      exact ⟨content, rfl⟩

/-- Claim C9 witness: a failing marshal yields the marshal error and an
attempt count of zero. -/
theorem post_marshal_failure_witness :
    post (Except.error "cyclic") (fun _ _ => (Except.ok () : Except AcmeError Unit)) 7 =
      some (0, Except.error (AcmeError.otherError "failed to marshal message")) :=
  (post_marshal_failure (α := Unit)).1 "cyclic" (fun _ _ => Except.ok ()) 7

/-- Claim C8: the DNS-01 configuration surface is applied conditionally
and exactly as selected: extra recursive nameservers are configured if
and only if the resolvers list is non-empty, the full-propagation
requirement is disabled if and only if dns.disable-cp is set, and the
configured DNS timeout in seconds is applied if and only if dns-timeout
is set; each option leaves the other settings untouched. -/
theorem setupDNS_config (ctx : CLIDNSContext) (o : DNS01Options) :
    (setupDNS ctx o).recursiveNameservers =
      (if 0 < ctx.resolvers.length then ParseNameservers ctx.resolvers
       else o.recursiveNameservers)
    ∧ (setupDNS ctx o).requireCompletePropagation =
      (if ctx.disableCP then false else o.requireCompletePropagation)
    ∧ (setupDNS ctx o).dnsTimeoutSec =
      (if ctx.dnsTimeoutIsSet then some ctx.dnsTimeout else o.dnsTimeoutSec) := by
  obtain ⟨rs, dcp, tset, tout⟩ := ctx
  by_cases hr : 0 < rs.length <;> cases dcp <;> cases tset <;>
    simp [setupDNS, CondOption, AddRecursiveNameservers,
      DisableCompletePropagationRequirement, AddDNSTimeout, ParseNameservers, hr]

/-- Claim C7: the provider switch is exactly the registry lookup: every
recognized name yields precisely that provider constructor tag (with
"manual" mapped to the built-in manual DNS provider), and every
unrecognized name yields no provider, only the "unrecognized DNS
provider" error naming the input. -/
theorem NewDNSChallengeProviderByName_registry (name : String) :
    NewDNSChallengeProviderByName name =
      (match dnsProviderRegistry.lookup name with
       | some c => Except.ok c
       | none => Except.error ("unrecognized DNS provider: " ++ name))
    ∧ NewDNSChallengeProviderByName "manual" = Except.ok ProviderConstructor.dns01Manual := by
  constructor
  case right => rfl
  case left =>
    by_cases h0 : name = "acme-dns"
    · subst h0
      rfl
    by_cases h1 : name = "alidns"
    · subst h1
      rfl
    by_cases h2 : name = "azure"
    · subst h2
      rfl
    by_cases h3 : name = "auroradns"
    · subst h3
      rfl
    by_cases h4 : name = "bindman"
    · subst h4
      rfl
    by_cases h5 : name = "bluecat"
    · subst h5
      rfl
    by_cases h6 : name = "cloudflare"
    · subst h6
      rfl
    by_cases h7 : name = "cloudns"
    · subst h7
      rfl
    by_cases h8 : name = "cloudxns"
    · subst h8
      rfl
    by_cases h9 : name = "conoha"
    · subst h9
      rfl
    by_cases h10 : name = "designate"
    · subst h10
      rfl
    by_cases h11 : name = "digitalocean"
    · subst h11
      rfl
    by_cases h12 : name = "dnsimple"
    · subst h12
      rfl
    by_cases h13 : name = "dnsmadeeasy"
    · subst h13
      rfl
    by_cases h14 : name = "dnspod"
    · subst h14
      rfl
    by_cases h15 : name = "dode"
    · subst h15
      rfl
    by_cases h16 : name = "dreamhost"
    · subst h16
      rfl
    by_cases h17 : name = "duckdns"
    · subst h17
      rfl
    by_cases h18 : name = "dyn"
    · subst h18
      rfl
    by_cases h19 : name = "fastdns"
    · subst h19
      rfl
    by_cases h20 : name = "easydns"
    · subst h20
      rfl
    by_cases h21 : name = "exec"
    · subst h21
      rfl
    by_cases h22 : name = "exoscale"
    · subst h22
      rfl
    by_cases h23 : name = "gandi"
    · subst h23
      rfl
    by_cases h24 : name = "gandiv5"
    · subst h24
      rfl
    by_cases h25 : name = "glesys"
    · subst h25
      rfl
    by_cases h26 : name = "gcloud"
    · subst h26
      rfl
    by_cases h27 : name = "godaddy"
    · subst h27
      rfl
    by_cases h28 : name = "hostingde"
    · subst h28
      rfl
    by_cases h29 : name = "httpreq"
    · subst h29
      rfl
    by_cases h30 : name = "iij"
    · subst h30
      rfl
    by_cases h31 : name = "inwx"
    · subst h31
      rfl
    by_cases h32 : name = "joker"
    · subst h32
      rfl
    by_cases h33 : name = "lightsail"
    · subst h33
      rfl
    by_cases h34 : name = "linode"
    · subst h34
      rfl
    by_cases h35 : name = "linodev4"
    · subst h35
      rfl
    by_cases h36 : name = "manual"
    · subst h36
      rfl
    by_cases h37 : name = "mydnsjp"
    · subst h37
      rfl
    by_cases h38 : name = "namecheap"
    · subst h38
      rfl
    by_cases h39 : name = "namedotcom"
    · subst h39
      rfl
    by_cases h40 : name = "netcup"
    · subst h40
      rfl
    by_cases h41 : name = "nifcloud"
    · subst h41
      rfl
    by_cases h42 : name = "ns1"
    · subst h42
      rfl
    by_cases h43 : name = "oraclecloud"
    · subst h43
      rfl
    by_cases h44 : name = "otc"
    · subst h44
      rfl
    by_cases h45 : name = "ovh"
    · subst h45
      rfl
    by_cases h46 : name = "pdns"
    · subst h46
      rfl
    by_cases h47 : name = "rackspace"
    · subst h47
      rfl
    by_cases h48 : name = "route53"
    · subst h48
      rfl
    by_cases h49 : name = "rfc2136"
    · subst h49
      rfl
    by_cases h50 : name = "sakuracloud"
    · subst h50
      rfl
    by_cases h51 : name = "stackpath"
    · subst h51
      rfl
    by_cases h52 : name = "selectel"
    · subst h52
      rfl
    by_cases h53 : name = "transip"
    · subst h53
      rfl
    by_cases h54 : name = "vegadns"
    · subst h54
      rfl
    by_cases h55 : name = "versio"
    · subst h55
      rfl
    by_cases h56 : name = "vultr"
    · subst h56
      rfl
    by_cases h57 : name = "vscale"
    · subst h57
      rfl
    by_cases h58 : name = "zoneee"
    · subst h58
      rfl
    have b0 : (name == "acme-dns") = false := beq_eq_false_iff_ne.mpr h0
    have b1 : (name == "alidns") = false := beq_eq_false_iff_ne.mpr h1
    have b2 : (name == "azure") = false := beq_eq_false_iff_ne.mpr h2
    have b3 : (name == "auroradns") = false := beq_eq_false_iff_ne.mpr h3
    have b4 : (name == "bindman") = false := beq_eq_false_iff_ne.mpr h4
    have b5 : (name == "bluecat") = false := beq_eq_false_iff_ne.mpr h5
    have b6 : (name == "cloudflare") = false := beq_eq_false_iff_ne.mpr h6
    have b7 : (name == "cloudns") = false := beq_eq_false_iff_ne.mpr h7
    have b8 : (name == "cloudxns") = false := beq_eq_false_iff_ne.mpr h8
    have b9 : (name == "conoha") = false := beq_eq_false_iff_ne.mpr h9
    have b10 : (name == "designate") = false := beq_eq_false_iff_ne.mpr h10
    have b11 : (name == "digitalocean") = false := beq_eq_false_iff_ne.mpr h11
    have b12 : (name == "dnsimple") = false := beq_eq_false_iff_ne.mpr h12
    have b13 : (name == "dnsmadeeasy") = false := beq_eq_false_iff_ne.mpr h13
    have b14 : (name == "dnspod") = false := beq_eq_false_iff_ne.mpr h14
    have b15 : (name == "dode") = false := beq_eq_false_iff_ne.mpr h15
    have b16 : (name == "dreamhost") = false := beq_eq_false_iff_ne.mpr h16
    have b17 : (name == "duckdns") = false := beq_eq_false_iff_ne.mpr h17
    have b18 : (name == "dyn") = false := beq_eq_false_iff_ne.mpr h18
    have b19 : (name == "fastdns") = false := beq_eq_false_iff_ne.mpr h19
    have b20 : (name == "easydns") = false := beq_eq_false_iff_ne.mpr h20
    have b21 : (name == "exec") = false := beq_eq_false_iff_ne.mpr h21
    have b22 : (name == "exoscale") = false := beq_eq_false_iff_ne.mpr h22
    have b23 : (name == "gandi") = false := beq_eq_false_iff_ne.mpr h23
    have b24 : (name == "gandiv5") = false := beq_eq_false_iff_ne.mpr h24
    have b25 : (name == "glesys") = false := beq_eq_false_iff_ne.mpr h25
    have b26 : (name == "gcloud") = false := beq_eq_false_iff_ne.mpr h26
    have b27 : (name == "godaddy") = false := beq_eq_false_iff_ne.mpr h27
    have b28 : (name == "hostingde") = false := beq_eq_false_iff_ne.mpr h28
    have b29 : (name == "httpreq") = false := beq_eq_false_iff_ne.mpr h29
    have b30 : (name == "iij") = false := beq_eq_false_iff_ne.mpr h30
    have b31 : (name == "inwx") = false := beq_eq_false_iff_ne.mpr h31
    have b32 : (name == "joker") = false := beq_eq_false_iff_ne.mpr h32
    have b33 : (name == "lightsail") = false := beq_eq_false_iff_ne.mpr h33
    have b34 : (name == "linode") = false := beq_eq_false_iff_ne.mpr h34
    have b35 : (name == "linodev4") = false := beq_eq_false_iff_ne.mpr h35
    have b36 : (name == "manual") = false := beq_eq_false_iff_ne.mpr h36
    have b37 : (name == "mydnsjp") = false := beq_eq_false_iff_ne.mpr h37
    have b38 : (name == "namecheap") = false := beq_eq_false_iff_ne.mpr h38
    have b39 : (name == "namedotcom") = false := beq_eq_false_iff_ne.mpr h39
    have b40 : (name == "netcup") = false := beq_eq_false_iff_ne.mpr h40
    have b41 : (name == "nifcloud") = false := beq_eq_false_iff_ne.mpr h41
    have b42 : (name == "ns1") = false := beq_eq_false_iff_ne.mpr h42
    have b43 : (name == "oraclecloud") = false := beq_eq_false_iff_ne.mpr h43
    have b44 : (name == "otc") = false := beq_eq_false_iff_ne.mpr h44
    have b45 : (name == "ovh") = false := beq_eq_false_iff_ne.mpr h45
    have b46 : (name == "pdns") = false := beq_eq_false_iff_ne.mpr h46
    have b47 : (name == "rackspace") = false := beq_eq_false_iff_ne.mpr h47
    have b48 : (name == "route53") = false := beq_eq_false_iff_ne.mpr h48
    have b49 : (name == "rfc2136") = false := beq_eq_false_iff_ne.mpr h49
    have b50 : (name == "sakuracloud") = false := beq_eq_false_iff_ne.mpr h50
    have b51 : (name == "stackpath") = false := beq_eq_false_iff_ne.mpr h51
    have b52 : (name == "selectel") = false := beq_eq_false_iff_ne.mpr h52
    have b53 : (name == "transip") = false := beq_eq_false_iff_ne.mpr h53
    have b54 : (name == "vegadns") = false := beq_eq_false_iff_ne.mpr h54
    have b55 : (name == "versio") = false := beq_eq_false_iff_ne.mpr h55
    have b56 : (name == "vultr") = false := beq_eq_false_iff_ne.mpr h56
    have b57 : (name == "vscale") = false := beq_eq_false_iff_ne.mpr h57
    have b58 : (name == "zoneee") = false := beq_eq_false_iff_ne.mpr h58
    simp [NewDNSChallengeProviderByName, dnsProviderRegistry, List.lookup, h0, h1, h2, h3,
      h4, h5, h6, h7, h8, h9, h10, h11, h12, h13, h14, h15, h16, h17, h18, h19, h20, h21, h22,
      h23, h24, h25, h26, h27, h28, h29, h30, h31, h32, h33, h34, h35, h36, h37, h38, h39, h40,
      h41, h42, h43, h44, h45, h46, h47, h48, h49, h50, h51, h52, h53, h54, h55, h56, h57, h58,
      b0, b1, b2, b3, b4, b5, b6, b7, b8, b9, b10, b11, b12, b13, b14, b15, b16, b17, b18, b19,
      b20, b21, b22, b23, b24, b25, b26, b27, b28, b29, b30, b31, b32, b33, b34, b35, b36, b37,
      b38, b39, b40, b41, b42, b43, b44, b45, b46, b47, b48, b49, b50, b51, b52, b53, b54, b55,
      b56, b57, b58]

end LegoSpec
